import Mathlib

/-!
Shallow embedding of `dashboard-embed-sso/app.py`, a Flask backend that
authenticates a fixed set of users (email + password), keeps a cookie session,
and mints a user-scoped Databricks dashboard token through a three-step OAuth
exchange.  Network I/O is modelled by an oracle `upstream : HttpRequest →
HttpResponse`; every handler additionally returns the ordered list of outbound
requests it issued, so "no network call" and "later steps never attempted" are
statements about that trace.  JSON values are modelled by `JVal` (numbers as
integers, which covers every value this program produces or inspects), Python
dicts by insertion-ordered association lists with unique keys, and time by an
explicit `now : Nat` parameter standing for `int(time.time())`.
-/

/-- A JSON value, as produced by `response.json()` / consumed by `jsonify`.
Numbers are modelled as integers. -/
inductive JVal where
  | null : JVal
  | bool : Bool → JVal
  | num : Int → JVal
  | str : String → JVal
  | arr : List JVal → JVal
  | obj : List (String × JVal) → JVal

/-- Python truthiness of a JSON value (`None`, `False`, `0`, empty string,
empty list and empty dict are falsy). -/
def JVal.falsy : JVal → Bool
  | .null => true
  | .bool b => !b
  | .num n => n == 0
  | .str s => s == ""
  | .arr xs => xs.isEmpty
  | .obj fs => fs.isEmpty

/-- `d[k]` / `d.get(k)` on a Python dict modelled as an association list with
unique keys. -/
def dictGet {β : Type} (d : List (String × β)) (k : String) : Option β :=
  match d with
  | [] => none
  | (k0, v0) :: tl => if k0 = k then some v0 else dictGet tl k

/-- `d[k] = v` on a Python dict: replace in place when the key is present
(keeping its position), otherwise append at the end. -/
def dictSet {β : Type} (d : List (String × β)) (k : String) (v : β) :
    List (String × β) :=
  match d with
  | [] => [(k, v)]
  | (k0, v0) :: tl => if k0 = k then (k0, v) :: tl else (k0, v0) :: dictSet tl k v

/-- `d.pop(k, default)` restricted to the removal part: drop the entry for `k`. -/
def dictRemove {β : Type} (d : List (String × β)) (k : String) :
    List (String × β) :=
  match d with
  | [] => []
  | (k0, v0) :: tl => if k0 = k then tl else (k0, v0) :: dictRemove tl k

/-- Lookup inside a JSON object; `none` both when the value is not an object
and when the key is absent. -/
def jGet (j : JVal) (k : String) : Option JVal :=
  match j with
  | .obj fs => dictGet fs k
  | _ => none

/-- Python `str.strip()` (whitespace trimming on both ends), written over the
character list so that it evaluates by kernel reduction. -/
def pyStrip (s : String) : String :=
  String.mk
    (((s.data.dropWhile Char.isWhitespace).reverse.dropWhile Char.isWhitespace).reverse)

/-- Python `str.lower()` restricted to ASCII (every string this program
normalizes is an ASCII email). -/
def pyLowerChar (c : Char) : Char :=
  if 65 ≤ c.toNat ∧ c.toNat ≤ 90 then Char.ofNat (c.toNat + 32) else c

/-- `s.lower()` over the character list. -/
def pyLower (s : String) : String := String.mk (s.data.map pyLowerChar)

/-- Python `str.rstrip('/')`: drop all trailing slashes. -/
def rstripSlash (s : String) : String :=
  String.mk ((s.data.reverse.dropWhile (fun c => c = '/')).reverse)

/-- UTF-8 encoding of a code point, as a list of byte values. -/
def utf8EncodeNat (n : Nat) : List Nat :=
  if n < 0x80 then [n]
  else if n < 0x800 then [0xC0 + n / 0x40, 0x80 + n % 0x40]
  else if n < 0x10000 then
    [0xE0 + n / 0x1000, 0x80 + (n / 0x40) % 0x40, 0x80 + n % 0x40]
  else
    [0xF0 + n / 0x40000, 0x80 + (n / 0x1000) % 0x40,
     0x80 + (n / 0x40) % 0x40, 0x80 + n % 0x40]

/-- UTF-8 bytes of a string (`s.encode()` in Python). -/
def utf8Bytes (s : String) : List Nat :=
  s.data.flatMap (fun c => utf8EncodeNat c.toNat)

/-- The standard base64 alphabet. -/
def b64Alphabet : String :=
  "ABCDEFGHIJKLMNOPQRSTUVWXYZabcdefghijklmnopqrstuvwxyz0123456789+/"

/-- Character of the base64 alphabet at a 6-bit index. -/
def b64Char (n : Nat) : Char := b64Alphabet.data.getD n 'A'

/-- Base64-encode a byte list, with `=` padding (`base64.b64encode`). -/
def b64encodeBytes : List Nat → String
  | [] => ""
  | [a] => String.mk [b64Char (a / 4), b64Char (a % 4 * 16)] ++ "=="
  | [a, b] =>
      String.mk [b64Char (a / 4), b64Char (a % 4 * 16 + b / 16),
                 b64Char (b % 16 * 4)] ++ "="
  | a :: b :: c :: rest =>
      String.mk [b64Char (a / 4), b64Char (a % 4 * 16 + b / 16),
                 b64Char (b % 16 * 4 + c / 64), b64Char (c % 64)] ++
      b64encodeBytes rest

/-- `base64.b64encode(s.encode()).decode()`. -/
def b64encode (s : String) : String := b64encodeBytes (utf8Bytes s)

/-- Uppercase hexadecimal digit. -/
def hexUpper (n : Nat) : Char := "0123456789ABCDEF".data.getD n '0'

/-- `%XX` percent-escape of one byte. -/
def percentByte (n : Nat) : String :=
  String.mk ['%', hexUpper (n / 16), hexUpper (n % 16)]

/-- Bytes `urllib.parse` never escapes: ASCII letters, digits, `_.-~`. -/
def alwaysSafeByte (n : Nat) : Bool :=
  (0x41 ≤ n && n ≤ 0x5A) || (0x61 ≤ n && n ≤ 0x7A) ||
  (0x30 ≤ n && n ≤ 0x39) || n == 0x5F || n == 0x2E || n == 0x2D || n == 0x7E

/-- `urllib.parse.quote` with its default `safe='/'`. -/
def quote (s : String) : String :=
  String.join ((utf8Bytes s).map (fun n =>
    if alwaysSafeByte n || n == 0x2F then String.mk [Char.ofNat n]
    else percentByte n))

/-- `urllib.parse.quote_plus` (used by `urlencode`): space becomes `+`,
`safe=''`. -/
def quotePlus (s : String) : String :=
  String.join ((utf8Bytes s).map (fun n =>
    if n == 0x20 then "+"
    else if alwaysSafeByte n then String.mk [Char.ofNat n]
    else percentByte n))

/-- `urllib.parse.urlencode` over string-valued pairs. -/
def urlencode (ps : List (String × String)) : String :=
  String.intercalate "&" (ps.map (fun p => quotePlus p.1 ++ "=" ++ quotePlus p.2))

/-- JSON string escaping as `json.dumps` does for the characters this program
can meet (backslash and double quote; control characters as \xXX-free `\u`
escapes are not needed for the values in scope and are left as-is). -/
def jsonEscape (s : String) : String :=
  String.join (s.data.map (fun c =>
    if c = '\\' then "\\\\"
    else if c = '"' then "\\\""
    else String.mk [c]))

/-- A double-quoted JSON string literal. -/
def jsonQuote (s : String) : String := "\"" ++ jsonEscape s ++ "\""

mutual

/-- `json.dumps` with its default separators. -/
def dumps : JVal → String
  | .null => "null"
  | .bool true => "true"
  | .bool false => "false"
  | .num n => toString n
  | .str s => jsonQuote s
  | .arr xs => "[" ++ dumpsList xs ++ "]"
  | .obj fs => "\x7b" ++ dumpsObj fs ++ "\x7d"

/-- Comma-separated `json.dumps` of array elements. -/
def dumpsList : List JVal → String
  | [] => ""
  | [x] => dumps x
  | x :: y :: tl => dumps x ++ ", " ++ dumpsList (y :: tl)

/-- Comma-separated `json.dumps` of object fields. -/
def dumpsObj : List (String × JVal) → String
  | [] => ""
  | [(k, v)] => jsonQuote k ++ ": " ++ dumps v
  | (k, v) :: y :: tl => jsonQuote k ++ ": " ++ dumps v ++ ", " ++ dumpsObj (y :: tl)

end

mutual

/-- Python `repr` of a JSON value (single-quoted strings), used by `str()` on
containers. -/
def pyRepr : JVal → String
  | .null => "None"
  | .bool true => "True"
  | .bool false => "False"
  | .num n => toString n
  | .str s => String.mk ([] ++ [Char.ofNat 39]) ++ s ++ String.mk [Char.ofNat 39]
  | .arr xs => "[" ++ pyReprList xs ++ "]"
  | .obj fs => "\x7b" ++ pyReprObj fs ++ "\x7d"

/-- Comma-separated `repr` of list elements. -/
def pyReprList : List JVal → String
  | [] => ""
  | [x] => pyRepr x
  | x :: y :: tl => pyRepr x ++ ", " ++ pyReprList (y :: tl)

/-- Comma-separated `repr` of dict items. -/
def pyReprObj : List (String × JVal) → String
  | [] => ""
  | [(k, v)] => String.mk [Char.ofNat 39] ++ k ++ String.mk [Char.ofNat 39] ++ ": " ++ pyRepr v
  | (k, v) :: y :: tl =>
      String.mk [Char.ofNat 39] ++ k ++ String.mk [Char.ofNat 39] ++ ": " ++ pyRepr v ++ ", " ++
      pyReprObj (y :: tl)

end

/-- Python `str()` of a JSON value (as applied by f-strings and `urlencode`). -/
def pyStr : JVal → String
  | .str s => s
  | j => pyRepr j

/-- HTTP method of an outbound `requests` call. -/
inductive HttpMethod where
  | GET : HttpMethod
  | POST : HttpMethod
deriving DecidableEq

/-- An outbound HTTP request as issued by `requests.get` / `requests.post`
(`body` is the urlencoded form data, empty for GET). -/
structure HttpRequest where
  method : HttpMethod
  url : String
  headers : List (String × String)
  body : String
deriving DecidableEq

/-- An upstream HTTP response; `json` is the value `.json()` parses from the
body (responses in scope always carry parseable JSON). -/
structure HttpResponse where
  status_code : Nat
  text : String
  json : JVal

/-- The distinct failure points of `mint_databricks_token`.  Each constructor
corresponds to one `raise` site (or uncaught runtime error) in the source;
`message` reproduces the exception text served by the embed-config handler. -/
inductive MintErr where
  | configurationError : MintErr
  | attributeError : String → MintErr
  | keyError : String → MintErr
  | upstreamAuthError : Nat → String → MintErr
  | upstreamTokenInfoError : Nat → String → MintErr
  | upstreamScopedTokenError : Nat → String → MintErr
deriving DecidableEq

/-- `str(e)` for the exception a given `MintErr` stands for. -/
def MintErr.message : MintErr → String
  | .configurationError =>
      "Missing config. Set INSTANCE_URL, OAUTH_CLIENT_ID, OAUTH_SECRET, DASHBOARD_ID, WORKSPACE_ID."
  | .attributeError a => "AttributeError: " ++ a
  | .keyError k => "KeyError: " ++ k
  | .upstreamAuthError st tx => "OIDC token failed: " ++ toString st ++ " - " ++ tx
  | .upstreamTokenInfoError st tx => "Token info failed: " ++ toString st ++ " - " ++ tx
  | .upstreamScopedTokenError st tx => "Scoped token failed: " ++ toString st ++ " - " ++ tx

/-- The token dict returned by `mint_databricks_token` on success. -/
structure MintedToken where
  access_token : JVal
  token_type : String
  expires_in : JVal
  created_at : Nat

/-- `_env(key, fallback_key)` from the source: first non-empty environment
value among `key` and `fallback_key`, with trailing slashes stripped; empty
string when neither is set to a non-empty value. -/
def envPair (env : List (String × String)) (key fbk : String) : String :=
  let value : Option String :=
    match dictGet env key with
    | some v => if v = "" then dictGet env fbk else some v
    | none => dictGet env fbk
  match value with
  | some v => if v = "" then "" else rstripSlash v
  | none => ""

/-- `workspace_url` as read by `mint_databricks_token` and `get_embed_config`. -/
def cfgWorkspaceUrl (env : List (String × String)) : String :=
  envPair env "INSTANCE_URL" "DATABRICKS_WORKSPACE_URL"

/-- `client_id` as read by `mint_databricks_token`. -/
def cfgClientId (env : List (String × String)) : String :=
  envPair env "OAUTH_CLIENT_ID" "DATABRICKS_CLIENT_ID"

/-- `client_secret` as read by `mint_databricks_token`. -/
def cfgClientSecret (env : List (String × String)) : String :=
  envPair env "OAUTH_SECRET" "DATABRICKS_CLIENT_SECRET"

/-- `dashboard_id` as read by `mint_databricks_token` and `get_embed_config`. -/
def cfgDashboardId (env : List (String × String)) : String :=
  envPair env "DASHBOARD_ID" "DATABRICKS_DASHBOARD_ID"

/-- `basic_auth = base64(client_id + ':' + client_secret)`. -/
def cfgBasicAuth (env : List (String × String)) : String :=
  b64encode (cfgClientId env ++ ":" ++ cfgClientSecret env)

/-- The `ALLOWED_USERS` entry for the first demo user. -/
def youssefUser : List (String × JVal) :=
  [("id", JVal.str "user_youssef"),
   ("name", JVal.str "Youssef Mrini"),
   ("email", JVal.str "youssef.mrini@databricks.com"),
   ("department", JVal.str "Viewer"),
   ("password", JVal.str "realmadrid10.!")]

/-- The `ALLOWED_USERS` entry for the second demo user. -/
def hananeUser : List (String × JVal) :=
  [("id", JVal.str "user_hanane"),
   ("name", JVal.str "Hanane Oudnia"),
   ("email", JVal.str "hanane.oudnia@databricks.com"),
   ("department", JVal.str "Viewer"),
   ("password", JVal.str "realmadrid10.!")]

/-- `ALLOWED_USERS`: the fixed credential directory, keyed by email. -/
def ALLOWED_USERS : List (String × List (String × JVal)) :=
  [("youssef.mrini@databricks.com", youssefUser),
   ("hanane.oudnia@databricks.com", hananeUser)]

/-- `ALLOWED_USERS.get(v)` where `v` is a session value: only string keys can
hit the directory. -/
def allowedUsersGet : JVal → Option (List (String × JVal))
  | JVal.str s => dictGet ALLOWED_USERS s
  | _ => none

/-- `(d.get(k) or '')` for a dict field expected to be used as a string: falsy
values collapse to the empty string; a truthy non-string raises
(`AttributeError` on the subsequent `.strip()`). -/
def pyStrField (d : List (String × JVal)) (k : String) : Except Unit String :=
  let j := (dictGet d k).getD JVal.null
  if j.falsy then Except.ok ""
  else
    match j with
    | JVal.str s => Except.ok s
    | _ => Except.error ()

/-- `{k: v for k, v in user.items() if k != 'password'}`. -/
def userForResponse (user : List (String × JVal)) : List (String × JVal) :=
  user.filter (fun p => p.1 ≠ "password")

/-- The step-2 request: client-credentials POST to `{workspace_url}/oidc/v1/token`
with HTTP Basic auth and the given form body. -/
def oidcPost (workspace_url basic_auth body : String) : HttpRequest :=
  { method := HttpMethod.POST,
    url := workspace_url ++ "/oidc/v1/token",
    headers := [("Content-Type", "application/x-www-form-urlencoded"),
                ("Authorization", "Basic " ++ basic_auth)],
    body := body }

/-- The service-token request (step 2 of the spec protocol). -/
def mintReq1 (workspace_url basic_auth : String) : HttpRequest :=
  oidcPost workspace_url basic_auth
    (urlencode [("grant_type", "client_credentials"), ("scope", "all-apis")])

/-- The tokeninfo GET (step 3 of the spec protocol): both query parameters
carry the URL-encoded user email. -/
def mintReq2 (workspace_url dashboard_id user_email oidc_token : String) :
    HttpRequest :=
  { method := HttpMethod.GET,
    url := workspace_url ++ "/api/2.0/lakeview/dashboards/" ++ dashboard_id ++
           "/published/tokeninfo?external_viewer_id=" ++ quote user_email ++
           "&external_value=" ++ quote user_email,
    headers := [("Authorization", "Bearer " ++ oidc_token)],
    body := "" }

/-- `params` for the scoped exchange: tokeninfo fields with
`authorization_details` popped, `grant_type` set, and `authorization_details`
re-added as its `json.dumps` serialization (a pop-then-set lands the key at the
end, as in a Python dict). -/
def scopedParams (token_info : List (String × JVal)) : List (String × JVal) :=
  let auth_details := (dictGet token_info "authorization_details").getD JVal.null
  let params := dictRemove token_info "authorization_details"
  dictSet (dictSet params "grant_type" (JVal.str "client_credentials"))
    "authorization_details" (JVal.str (dumps auth_details))

/-- The scoped-token request (step 4 of the spec protocol): same endpoint and
Basic auth as `mintReq1`, body urlencoded from `scopedParams` with values put
through Python `str()`. -/
def mintReq3 (workspace_url basic_auth : String)
    (token_info : List (String × JVal)) : HttpRequest :=
  oidcPost workspace_url basic_auth
    (urlencode ((scopedParams token_info).map (fun p => (p.1, pyStr p.2))))

/-- The three sequential upstream exchanges of `mint_databricks_token`, after
config validation and email extraction.  Returns the result together with the
ordered trace of issued requests. -/
def mintExchange (workspace_url dashboard_id basic_auth : String)
    (upstream : HttpRequest → HttpResponse) (now : Nat) (user_email : String) :
    Except MintErr MintedToken × List HttpRequest :=
  let req1 := mintReq1 workspace_url basic_auth
  let oidc := upstream req1
  if oidc.status_code ≠ 200 then
    (Except.error (MintErr.upstreamAuthError oidc.status_code oidc.text), [req1])
  else
    match jGet oidc.json "access_token" with
    | none => (Except.error (MintErr.keyError "access_token"), [req1])
    | some tokJ =>
      let req2 := mintReq2 workspace_url dashboard_id user_email (pyStr tokJ)
      let ti := upstream req2
      if ti.status_code ≠ 200 then
        (Except.error (MintErr.upstreamTokenInfoError ti.status_code ti.text),
         [req1, req2])
      else
        match ti.json with
        | JVal.obj token_info =>
          let req3 := mintReq3 workspace_url basic_auth token_info
          let scp := upstream req3
          if scp.status_code ≠ 200 then
            (Except.error
               (MintErr.upstreamScopedTokenError scp.status_code scp.text),
             [req1, req2, req3])
          else
            match jGet scp.json "access_token" with
            | none =>
                (Except.error (MintErr.keyError "access_token"), [req1, req2, req3])
            | some atk =>
                (Except.ok
                   { access_token := atk,
                     token_type := "Bearer",
                     expires_in := (jGet scp.json "expires_in").getD (JVal.num 3600),
                     created_at := now },
                 [req1, req2, req3])
        | _ => (Except.error (MintErr.attributeError "copy"), [req1, req2])

/-- `mint_databricks_token(user_data)`: config validation (fail fast, before
any request), email extraction from `user_data`, then the three exchanges. -/
def mint_databricks_token (env : List (String × String))
    (upstream : HttpRequest → HttpResponse) (now : Nat)
    (user_data : List (String × JVal)) :
    Except MintErr MintedToken × List HttpRequest :=
  if cfgWorkspaceUrl env = "" ∨ cfgClientId env = "" ∨ cfgClientSecret env = "" ∨
      cfgDashboardId env = "" then
    (Except.error MintErr.configurationError, [])
  else
    match pyStrField user_data "email" with
    | Except.error _ => (Except.error (MintErr.attributeError "strip"), [])
    | Except.ok e =>
        mintExchange (cfgWorkspaceUrl env) (cfgDashboardId env) (cfgBasicAuth env)
          upstream now (pyStrip e)

/-- A Flask response: HTTP status and the `jsonify` body (`JVal.null` stands
for the framework-generated 500 page on an uncaught exception outside
`mint_databricks_token`). -/
structure ApiResponse where
  status : Nat
  body : JVal

/-- The Flask `session` dict for one client. -/
def Session := List (String × JVal)

/-- Result of one request: response, session as left afterwards, and the
ordered trace of outbound HTTP requests issued while handling it. -/
def Handler := Session → ApiResponse × Session × List HttpRequest

/-- The 401 body produced by the `login_required` decorator. -/
def authRequiredBody : JVal := JVal.obj [("error", JVal.str "Authentication required")]

/-- The 401 body produced when a session user no longer resolves. -/
def userNotFoundBody : JVal := JVal.obj [("error", JVal.str "User not found")]

/-- The 401 body produced by a failed login. -/
def invalidCredentialsBody : JVal :=
  JVal.obj [("error", JVal.str "Invalid email or password")]

/-- The `login_required` decorator: reject with 401 before invoking the wrapped
handler whenever `'user_id' not in session`; the session is untouched and no
request is issued. -/
def login_required (f : Handler) : Handler := fun s =>
  if (dictGet s "user_id").isNone then
    (⟨401, authRequiredBody⟩, s, [])
  else f s

/-- `POST /api/auth/login` with an already-parsed JSON object body.  Email is
trimmed and lower-cased, password trimmed; a missing user and a mismatched
password take the identical 401 branch; success stores `user_id` and the
normalized email in the session and returns the user without its password. -/
def login (data : List (String × JVal)) (s : Session) : ApiResponse × Session :=
  match pyStrField data "email", pyStrField data "password" with
  | Except.ok e0, Except.ok p0 =>
    let email := pyLower (pyStrip e0)
    let password := pyStrip p0
    match dictGet ALLOWED_USERS email with
    | none => (⟨401, invalidCredentialsBody⟩, s)
    | some user =>
      if user.isEmpty then (⟨401, invalidCredentialsBody⟩, s)
      else
        match dictGet user "password" with
        | some (JVal.str sp) =>
          if sp = password then
            match dictGet user "id" with
            | some idv =>
                (⟨200, JVal.obj [("success", JVal.bool true),
                                 ("user", JVal.obj (userForResponse user))]⟩,
                 dictSet (dictSet s "user_id" idv) "username" (JVal.str email))
            | none => (⟨500, JVal.null⟩, s)
          else (⟨401, invalidCredentialsBody⟩, s)
        | _ => (⟨401, invalidCredentialsBody⟩, s)
  | _, _ => (⟨500, JVal.null⟩, s)

/-- `POST /api/auth/logout`: clear the session unconditionally. -/
def logout (_s : Session) : ApiResponse × Session :=
  (⟨200, JVal.obj [("success", JVal.bool true)]⟩, [])

/-- Body of `GET /api/auth/current-user` (inside `login_required`): resolve the
session username in the directory, clearing the session when it no longer
resolves. -/
def get_current_user_inner : Handler := fun s =>
  match allowedUsersGet ((dictGet s "username").getD JVal.null) with
  | none => (⟨401, userNotFoundBody⟩, [], [])
  | some user =>
    if user.isEmpty then (⟨401, userNotFoundBody⟩, [], [])
    else (⟨200, JVal.obj (userForResponse user)⟩, s, [])

/-- `GET /api/auth/current-user`. -/
def get_current_user : Handler := login_required get_current_user_inner

/-- Body of `GET /api/dashboard/embed-config` (inside `login_required`):
resolve the session user, mint a token for it, and assemble the embed config;
any minting failure becomes a 500 carrying the exception message. -/
def get_embed_config_inner (env : List (String × String))
    (upstream : HttpRequest → HttpResponse) (now : Nat) : Handler := fun s =>
  match allowedUsersGet ((dictGet s "username").getD JVal.null) with
  | none => (⟨401, userNotFoundBody⟩, [], [])
  | some user =>
    if user.isEmpty then (⟨401, userNotFoundBody⟩, [], [])
    else
      match mint_databricks_token env upstream now user with
      | (Except.error e, tr) =>
          (⟨500, JVal.obj [("error", JVal.str e.message)]⟩, s, tr)
      | (Except.ok tok, tr) =>
          (⟨200, JVal.obj
              [("workspace_url", JVal.str (cfgWorkspaceUrl env)),
               ("workspace_id",
                JVal.str (envPair env "WORKSPACE_ID" "DATABRICKS_WORKSPACE_ID")),
               ("dashboard_id", JVal.str (cfgDashboardId env)),
               ("warehouse_id",
                match dictGet env "DATABRICKS_WAREHOUSE_ID" with
                | some v => JVal.str v
                | none => JVal.null),
               ("embed_token", tok.access_token),
               ("token_expires_in", tok.expires_in),
               ("user_context", JVal.obj (userForResponse user))]⟩,
           s, tr)

/-- `GET /api/dashboard/embed-config`. -/
def get_embed_config (env : List (String × String))
    (upstream : HttpRequest → HttpResponse) (now : Nat) : Handler :=
  login_required (get_embed_config_inner env upstream now)

/-- A dict field holding a string passes through `(d.get(k) or '').strip()`
untouched up to the strip (the empty string is falsy but collapses to itself). -/
theorem pyStrField_str (d : List (String × JVal)) (k v : String)
    (hd : dictGet d k = some (JVal.str v)) : pyStrField d k = Except.ok v := by
  unfold pyStrField
  rw [hd]
  by_cases hv : v = "" <;> simp [JVal.falsy, hv]

/-- Setting a dict key makes it readable. -/
theorem dictGet_dictSet_self {β : Type} (d : List (String × β)) (k : String) (v : β) :
    dictGet (dictSet d k v) k = some v := by
  induction d with
  | nil => simp [dictSet, dictGet]
  | cons hd tl ih =>
    obtain ⟨k0, v0⟩ := hd
    by_cases h : k0 = k <;> simp [dictSet, dictGet, h, ih]

/-- The credential directory has exactly two entries. -/
theorem allowedUsersGet_cases (x : String) (u : List (String × JVal))
    (h : dictGet ALLOWED_USERS x = some u) : u = youssefUser ∨ u = hananeUser := by
  simp only [ALLOWED_USERS, dictGet] at h
  by_cases h1 : "youssef.mrini@databricks.com" = x
  · rw [if_pos h1] at h
    exact Or.inl (Option.some_injective _ h).symm
  · rw [if_neg h1] at h
    by_cases h2 : "hanane.oudnia@databricks.com" = x
    · rw [if_pos h2] at h
      exact Or.inr (Option.some_injective _ h).symm
    · rw [if_neg h2] at h
      exact absurd h (by simp)

/-- Concrete environment used by witnesses: all four required values set. -/
def envC : List (String × String) :=
  [("INSTANCE_URL", "https://ws.example.com"), ("OAUTH_CLIENT_ID", "cid"),
   ("OAUTH_SECRET", "csec"), ("DASHBOARD_ID", "dash1")]

/-- Concrete tokeninfo payload used by witnesses. -/
def tiC : List (String × JVal) :=
  [("authorization_details", JVal.arr [JVal.obj [("type", JVal.str "workspace")]]),
   ("subject", JVal.str "svc")]

/-- Concrete upstream where every step succeeds (the GET is the tokeninfo
lookup, the POSTs are the token endpoints). -/
def upOk : HttpRequest → HttpResponse := fun r =>
  if r.method = HttpMethod.GET then ⟨200, "tokeninfo", JVal.obj tiC⟩
  else ⟨200, "token", JVal.obj [("access_token", JVal.str "AT"),
                                ("expires_in", JVal.num 900)]⟩

/-- Concrete upstream that is down for every request. -/
def upDown : HttpRequest → HttpResponse := fun _ => ⟨503, "down", JVal.null⟩

/-- Claim C2: a protected endpoint (current-user, embed-config) hit without a
session returns 401 Unauthorized, leaves the session untouched, and issues no
outbound request; the wrapped operation is never invoked. -/
theorem protected_endpoints_reject_without_session
    (env : List (String × String)) (upstream : HttpRequest → HttpResponse)
    (now : Nat) (s : Session) (h : dictGet s "user_id" = none) :
    get_current_user s = (⟨401, authRequiredBody⟩, s, []) ∧
    get_embed_config env upstream now s = (⟨401, authRequiredBody⟩, s, []) := by
  constructor <;>
    simp [get_current_user, get_embed_config, login_required, h]

/-- Witness for C2 at the empty session. -/
theorem protected_endpoints_reject_witness :
    get_current_user [] = (⟨401, authRequiredBody⟩, [], []) ∧
    get_embed_config envC upDown 0 [] = (⟨401, authRequiredBody⟩, [], []) :=
  protected_endpoints_reject_without_session envC upDown 0 [] rfl

/-- Claim C3: when any of the four required config values is empty, minting
fails with the configuration error before any upstream request is issued (the
trace is empty). -/
theorem mint_missing_config_fails_fast (env : List (String × String))
    (upstream : HttpRequest → HttpResponse) (now : Nat)
    (user : List (String × JVal))
    (h : cfgWorkspaceUrl env = "" ∨ cfgClientId env = "" ∨
         cfgClientSecret env = "" ∨ cfgDashboardId env = "") :
    mint_databricks_token env upstream now user =
      (Except.error MintErr.configurationError, []) := by
  unfold mint_databricks_token
  rw [if_pos h]

/-- Witness for C3 at the empty environment. -/
theorem mint_missing_config_witness :
    mint_databricks_token [] upDown 0 youssefUser =
      (Except.error MintErr.configurationError, []) :=
  mint_missing_config_fails_fast [] upDown 0 youssefUser (Or.inl rfl)

/-- Claim C10: `mint_databricks_token` reads its user argument only through
the `email` field — two user records with the same `email` produce the same
result and the same outbound requests against any environment and upstream. -/
theorem mint_depends_only_on_email (env : List (String × String))
    (upstream : HttpRequest → HttpResponse) (now : Nat)
    (u1 u2 : List (String × JVal))
    (h : dictGet u1 "email" = dictGet u2 "email") :
    mint_databricks_token env upstream now u1 =
      mint_databricks_token env upstream now u2 := by
  unfold mint_databricks_token
  have he : pyStrField u1 "email" = pyStrField u2 "email" := by
    unfold pyStrField
    rw [h]
  rw [he]

/-- A record sharing only the email with the first directory user. -/
def youssefVariant : List (String × JVal) :=
  [("id", JVal.str "user_other"), ("name", JVal.str "Someone Else"),
   ("email", JVal.str "youssef.mrini@databricks.com"),
   ("department", JVal.str "Admin"), ("password", JVal.str "different")]

/-- Witness for C10: same email, different name, id, department, password. -/
theorem mint_depends_only_on_email_witness :
    mint_databricks_token envC upDown 0 youssefUser =
      mint_databricks_token envC upDown 0 youssefVariant :=
  mint_depends_only_on_email envC upDown 0 youssefUser youssefVariant rfl

/-- Claim C4: a login with an email absent from the directory and a login with
a present email but mismatched password produce the very same response — the
401 invalid-credentials body — so the caller cannot tell the two causes apart. -/
theorem login_failures_indistinguishable
    (e1 p1 e2 p2 : String) (s : Session) (u : List (String × JVal))
    (h1 : dictGet ALLOWED_USERS (pyLower (pyStrip e1)) = none)
    (h2 : dictGet ALLOWED_USERS (pyLower (pyStrip e2)) = some u)
    (h3 : ∀ sp, dictGet u "password" = some (JVal.str sp) → sp ≠ pyStrip p2) :
    login [("email", JVal.str e1), ("password", JVal.str p1)] s =
      login [("email", JVal.str e2), ("password", JVal.str p2)] s ∧
    login [("email", JVal.str e1), ("password", JVal.str p1)] s =
      (⟨401, invalidCredentialsBody⟩, s) := by
  have d1e : pyStrField [("email", JVal.str e1), ("password", JVal.str p1)] "email" =
      Except.ok e1 := pyStrField_str _ _ _ (by simp [dictGet])
  have d1p : pyStrField [("email", JVal.str e1), ("password", JVal.str p1)] "password" =
      Except.ok p1 := pyStrField_str _ _ _ (by simp [dictGet])
  have d2e : pyStrField [("email", JVal.str e2), ("password", JVal.str p2)] "email" =
      Except.ok e2 := pyStrField_str _ _ _ (by simp [dictGet])
  have d2p : pyStrField [("email", JVal.str e2), ("password", JVal.str p2)] "password" =
      Except.ok p2 := pyStrField_str _ _ _ (by simp [dictGet])
  have hne : ¬u.isEmpty := by
    rcases allowedUsersGet_cases _ _ h2 with h | h <;> simp [h, youssefUser, hananeUser]
  have hlogin2 : login [("email", JVal.str e2), ("password", JVal.str p2)] s =
      (⟨401, invalidCredentialsBody⟩, s) := by
    unfold login
    rw [d2e, d2p]
    simp only [h2]
    rw [if_neg hne]
    rcases hp : dictGet u "password" with _ | v
    · rfl
    · cases v with
      | str sp =>
          have : sp ≠ pyStrip p2 := h3 sp hp
          simp [this]
      | null => rfl
      | bool b => rfl
      | num n => rfl
      | arr xs => rfl
      | obj fs => rfl
  have hlogin1 : login [("email", JVal.str e1), ("password", JVal.str p1)] s =
      (⟨401, invalidCredentialsBody⟩, s) := by
    unfold login
    rw [d1e, d1p]
    simp [h1]
  exact ⟨hlogin1.trans hlogin2.symm, hlogin1⟩

/-- Witness for C4: unknown email vs. known email with a wrong password. -/
theorem login_failures_witness :
    login [("email", JVal.str "nobody@example.com"), ("password", JVal.str "x")] [] =
      login [("email", JVal.str "youssef.mrini@databricks.com"),
             ("password", JVal.str "wrong")] [] ∧
    login [("email", JVal.str "nobody@example.com"), ("password", JVal.str "x")] [] =
      (⟨401, invalidCredentialsBody⟩, []) :=
  login_failures_indistinguishable "nobody@example.com" "x"
    "youssef.mrini@databricks.com" "wrong" [] youssefUser rfl rfl
    (fun sp hsp => by
      simp [youssefUser, dictGet] at hsp
      subst hsp
      decide)

/-- Login when the normalized email is not a directory key: invalid
credentials, session untouched. -/
theorem login_nouser_eq (e p : String) (s : Session)
    (hu : dictGet ALLOWED_USERS (pyLower (pyStrip e)) = none) :
    login [("email", JVal.str e), ("password", JVal.str p)] s =
      (⟨401, invalidCredentialsBody⟩, s) := by
  have de : pyStrField [("email", JVal.str e), ("password", JVal.str p)] "email" =
      Except.ok e := pyStrField_str _ _ _ (by simp [dictGet])
  have dp : pyStrField [("email", JVal.str e), ("password", JVal.str p)] "password" =
      Except.ok p := pyStrField_str _ _ _ (by simp [dictGet])
  unfold login
  simp [de, dp, hu]

/-- Login when the directory user exists but its stored password is not the
trimmed input: invalid credentials, session untouched. -/
theorem login_fail_eq (e p : String) (s : Session) (u : List (String × JVal))
    (hu : dictGet ALLOWED_USERS (pyLower (pyStrip e)) = some u)
    (hne : ¬u.isEmpty)
    (hpw : ∀ sp, dictGet u "password" = some (JVal.str sp) → sp ≠ pyStrip p) :
    login [("email", JVal.str e), ("password", JVal.str p)] s =
      (⟨401, invalidCredentialsBody⟩, s) := by
  have de : pyStrField [("email", JVal.str e), ("password", JVal.str p)] "email" =
      Except.ok e := pyStrField_str _ _ _ (by simp [dictGet])
  have dp : pyStrField [("email", JVal.str e), ("password", JVal.str p)] "password" =
      Except.ok p := pyStrField_str _ _ _ (by simp [dictGet])
  unfold login
  simp only [de, dp, hu]
  rw [if_neg hne]
  rcases hp : dictGet u "password" with _ | v
  · rfl
  · cases v with
    | str sp => simp [hp, hpw sp hp]
    | null => rfl
    | bool b => rfl
    | num n => rfl
    | arr xs => rfl
    | obj fs => rfl

/-- Login when the directory user exists and its stored password equals the
trimmed input: success response and the session bound to that user. -/
theorem login_success_eq (e p : String) (s : Session) (u : List (String × JVal))
    (idv : JVal)
    (hu : dictGet ALLOWED_USERS (pyLower (pyStrip e)) = some u)
    (hne : ¬u.isEmpty)
    (hpw : dictGet u "password" = some (JVal.str (pyStrip p)))
    (hid : dictGet u "id" = some idv) :
    login [("email", JVal.str e), ("password", JVal.str p)] s =
      (⟨200, JVal.obj [("success", JVal.bool true),
                       ("user", JVal.obj (userForResponse u))]⟩,
       dictSet (dictSet s "user_id" idv) "username"
         (JVal.str (pyLower (pyStrip e)))) := by
  have de : pyStrField [("email", JVal.str e), ("password", JVal.str p)] "email" =
      Except.ok e := pyStrField_str _ _ _ (by simp [dictGet])
  have dp : pyStrField [("email", JVal.str e), ("password", JVal.str p)] "password" =
      Except.ok p := pyStrField_str _ _ _ (by simp [dictGet])
  unfold login
  simp only [de, dp, hu]
  rw [if_neg hne]
  simp [hpw, hid]

/-- The C5 equivalence for a directory user with the concrete stored password,
parametric in the user record. -/
theorem login_iff_aux (e p : String) (s : Session) (u : List (String × JVal))
    (idv : JVal)
    (hu : dictGet ALLOWED_USERS (pyLower (pyStrip e)) = some u)
    (hne : ¬u.isEmpty)
    (hpw0 : dictGet u "password" = some (JVal.str "realmadrid10.!"))
    (hid : dictGet u "id" = some idv)
    (hstrip : dictGet (userForResponse u) "password" = none) :
    ((login [("email", JVal.str e), ("password", JVal.str p)] s).1.status = 200 ↔
      ∃ u2, dictGet ALLOWED_USERS (pyLower (pyStrip e)) = some u2 ∧
            dictGet u2 "password" = some (JVal.str (pyStrip p))) ∧
    (∀ u2, dictGet ALLOWED_USERS (pyLower (pyStrip e)) = some u2 →
       dictGet u2 "password" = some (JVal.str (pyStrip p)) →
       login [("email", JVal.str e), ("password", JVal.str p)] s =
         (⟨200, JVal.obj [("success", JVal.bool true),
                          ("user", JVal.obj (userForResponse u2))]⟩,
          dictSet (dictSet s "user_id" ((dictGet u2 "id").getD JVal.null))
            "username" (JVal.str (pyLower (pyStrip e)))) ∧
       dictGet (userForResponse u2) "password" = none) := by
  by_cases hp : "realmadrid10.!" = pyStrip p
  · have hsucc := login_success_eq e p s u idv hu hne (hp ▸ hpw0) hid
    refine ⟨⟨fun _ => ⟨u, hu, hp ▸ hpw0⟩, fun _ => ?_⟩, fun u2 hu2 hpw2 => ?_⟩
    · rw [hsucc]
    · rw [hu] at hu2
      injection hu2 with hu2
      subst hu2
      refine ⟨?_, hstrip⟩
      rw [hid]
      exact hsucc
  · have hfail := login_fail_eq e p s u hu hne (by
      intro sp hsp
      rw [hpw0] at hsp
      injection hsp with hsp
      injection hsp with hsp
      subst hsp
      exact hp)
    refine ⟨⟨fun h => ?_, fun h => ?_⟩, fun u2 hu2 hpw2 => ?_⟩
    · rw [hfail] at h
      simp at h
    · rcases h with ⟨u2, hu2, hpw2⟩
      rw [hu] at hu2
      injection hu2 with hu2
      subst hu2
      rw [hpw0] at hpw2
      injection hpw2 with hpw2
      injection hpw2 with hpw2
      exact absurd hpw2 hp
    · rw [hu] at hu2
      injection hu2 with hu2
      subst hu2
      rw [hpw0] at hpw2
      injection hpw2 with hpw2
      injection hpw2 with hpw2
      exact absurd hpw2 hp

/-- Claim C5: login succeeds exactly when the trimmed, lower-cased email is a
directory key whose stored password equals the trimmed input password; on
success the session is bound to that user and the returned user object carries
no password field. -/
theorem login_iff_directory_match (e p : String) (s : Session) :
    ((login [("email", JVal.str e), ("password", JVal.str p)] s).1.status = 200 ↔
      ∃ u, dictGet ALLOWED_USERS (pyLower (pyStrip e)) = some u ∧
           dictGet u "password" = some (JVal.str (pyStrip p))) ∧
    (∀ u, dictGet ALLOWED_USERS (pyLower (pyStrip e)) = some u →
       dictGet u "password" = some (JVal.str (pyStrip p)) →
       login [("email", JVal.str e), ("password", JVal.str p)] s =
         (⟨200, JVal.obj [("success", JVal.bool true),
                          ("user", JVal.obj (userForResponse u))]⟩,
          dictSet (dictSet s "user_id" ((dictGet u "id").getD JVal.null))
            "username" (JVal.str (pyLower (pyStrip e)))) ∧
       dictGet (userForResponse u) "password" = none) := by
  by_cases hnone : dictGet ALLOWED_USERS (pyLower (pyStrip e)) = none
  · refine ⟨⟨fun h => ?_, fun h => ?_⟩, fun u hcon => ?_⟩
    · rw [login_nouser_eq e p s hnone] at h
      simp at h
    · rcases h with ⟨u, hcon, -⟩
      rw [hnone] at hcon
      cases hcon
    · rw [hnone] at hcon
      cases hcon
  · obtain ⟨u, hu⟩ := Option.ne_none_iff_exists.mp hnone
    have hu := hu.symm
    rcases allowedUsersGet_cases _ _ hu with h | h <;> subst h
    · exact login_iff_aux e p s youssefUser (JVal.str "user_youssef") hu
        (by decide) rfl rfl rfl
    · exact login_iff_aux e p s hananeUser (JVal.str "user_hanane") hu
        (by decide) rfl rfl rfl

/-- Witness for C5: a correct login (differently-cased email) succeeds with the
expected session binding and a password-free user object. -/
theorem login_iff_directory_match_witness :
    login [("email", JVal.str "Youssef.Mrini@databricks.com"),
           ("password", JVal.str "realmadrid10.!")] [] =
      (⟨200, JVal.obj [("success", JVal.bool true),
                       ("user", JVal.obj (userForResponse youssefUser))]⟩,
       dictSet (dictSet [] "user_id" (JVal.str "user_youssef")) "username"
         (JVal.str "youssef.mrini@databricks.com")) ∧
    dictGet (userForResponse youssefUser) "password" = none :=
  (login_iff_directory_match "Youssef.Mrini@databricks.com" "realmadrid10.!" []).2
    youssefUser rfl rfl

/-- The session invariant of claim C9: any stored username resolves in the
credential directory. -/
def sessionOk (s : Session) : Prop :=
  ∀ j, dictGet s "username" = some j → ∃ u, allowedUsersGet j = some u

/-- After a login the session is either untouched or bound to a directory
user found by the lookup. -/
theorem login_session_shape (data : List (String × JVal)) (s : Session) :
    (login data s).2 = s ∨
    ∃ u email idv, dictGet ALLOWED_USERS email = some u ∧
      (login data s).2 = dictSet (dictSet s "user_id" idv) "username"
        (JVal.str email) := by
  unfold login
  rcases he : pyStrField data "email" with he0 | e0
  · simp [he]
  · rcases hp : pyStrField data "password" with hp0 | p0
    · simp [he, hp]
    · simp only [he, hp]
      rcases hu : dictGet ALLOWED_USERS (pyLower (pyStrip e0)) with _ | u
      · simp
      · simp only []
        by_cases hne : u.isEmpty
        · simp [hne]
        · rw [if_neg hne]
          rcases hpw : dictGet u "password" with _ | v
          · simp
          · cases v with
            | str sp =>
              simp only []
              by_cases hsp : sp = pyStrip p0
              · rw [if_pos hsp]
                rcases hid : dictGet u "id" with _ | idv
                · simp
                · simp only []
                  exact Or.inr ⟨u, pyLower (pyStrip e0), idv, hu, rfl⟩
              · simp [hsp]
            | null => simp
            | bool b => simp
            | num n => simp
            | arr xs => simp
            | obj fs => simp

/-- The session left by current-user is the inbound one or the cleared one. -/
theorem current_user_session_shape (s : Session) :
    (get_current_user s).2.1 = s ∨ (get_current_user s).2.1 = [] := by
  unfold get_current_user login_required get_current_user_inner
  by_cases h : (dictGet s "user_id").isNone
  · simp [h]
  · rcases hn : allowedUsersGet ((dictGet s "username").getD JVal.null) with _ | u
    · simp [h, hn]
    · by_cases hne : u.isEmpty <;> simp [h, hn, hne]

/-- The session left by embed-config is the inbound one or the cleared one. -/
theorem embed_config_session_shape (env : List (String × String))
    (upstream : HttpRequest → HttpResponse) (now : Nat) (s : Session) :
    (get_embed_config env upstream now s).2.1 = s ∨
    (get_embed_config env upstream now s).2.1 = [] := by
  unfold get_embed_config login_required get_embed_config_inner
  by_cases h : (dictGet s "user_id").isNone
  · simp [h]
  · rcases hn : allowedUsersGet ((dictGet s "username").getD JVal.null) with _ | u
    · simp [h, hn]
    · by_cases hne : u.isEmpty
      · simp [h, hn, hne]
      · rcases hm : mint_databricks_token env upstream now u with ⟨res, tr⟩
        cases res <;> simp [h, hn, hne, hm]

/-- Claim C9: every operation preserves the invariant that a stored session
username is a key of the credential directory — login only stores a normalized
email it found in the directory, and current-user and embed-config clear the
session when the username no longer resolves. -/
theorem session_username_invariant (env : List (String × String))
    (upstream : HttpRequest → HttpResponse) (now : Nat)
    (data : List (String × JVal)) (s : Session) (h : sessionOk s) :
    sessionOk (login data s).2 ∧ sessionOk (logout s).2 ∧
    sessionOk (get_current_user s).2.1 ∧
    sessionOk (get_embed_config env upstream now s).2.1 := by
  have hempty : sessionOk [] := fun _ hj => Option.noConfusion hj
  refine ⟨?_, hempty, ?_, ?_⟩
  · rcases login_session_shape data s with hs | ⟨u, email, idv, hu, hs⟩
    · rw [hs]; exact h
    · rw [hs]
      intro j hj
      rw [dictGet_dictSet_self] at hj
      injection hj with hj
      subst hj
      exact ⟨u, by simp [allowedUsersGet, hu]⟩
  · rcases current_user_session_shape s with hs | hs
    · rw [hs]; exact h
    · rw [hs]; exact hempty
  · rcases embed_config_session_shape env upstream now s with hs | hs
    · rw [hs]; exact h
    · rw [hs]; exact hempty

/-- Witness for C9 at the empty session, a login body, and a concrete
environment and upstream. -/
theorem session_username_invariant_witness :
    sessionOk (login [("email", JVal.str "youssef.mrini@databricks.com"),
                      ("password", JVal.str "realmadrid10.!")] []).2 ∧
    sessionOk (logout []).2 ∧ sessionOk (get_current_user []).2.1 ∧
    sessionOk (get_embed_config envC upOk 0 []).2.1 :=
  session_username_invariant envC upOk 0
    [("email", JVal.str "youssef.mrini@databricks.com"),
     ("password", JVal.str "realmadrid10.!")] []
    (fun _ hj => Option.noConfusion hj)

/-- Whenever the minting trace has a second element, it is the tokeninfo GET
for the email the exchange was started with. -/
theorem mintExchange_second_request (ws did ba : String)
    (upstream : HttpRequest → HttpResponse) (now : Nat) (ue : String)
    (r : HttpRequest)
    (hr : (mintExchange ws did ba upstream now ue).2.get? 1 = some r) :
    ∃ tok : String, r = mintReq2 ws did ue tok := by
  simp only [mintExchange] at hr
  split at hr
  · simp [List.get?] at hr
  · split at hr
    · simp [List.get?] at hr
    · rename_i tokJ htokJ
      refine ⟨pyStr tokJ, ?_⟩
      split at hr
      · simp [List.get?] at hr
        exact hr.symm
      · split at hr
        · split at hr
          · simp [List.get?] at hr
            exact hr.symm
          · split at hr
            · simp [List.get?] at hr
              exact hr.symm
            · simp [List.get?] at hr
              exact hr.symm
        · simp [List.get?] at hr
          exact hr.symm

/-- The session used by C1 and C6 witnesses: a logged-in first user. -/
def sC : Session :=
  [("user_id", JVal.str "user_youssef"),
   ("username", JVal.str "youssef.mrini@databricks.com")]

/-- Claim C1: whenever an embed-config request issues a tokeninfo lookup (the
second outbound request), that request is a GET whose query string sets
`external_viewer_id` and `external_value` to one and the same value — the
URL-encoding of the trimmed email of the user bound in the session — so the
identity is the session's, never caller-supplied. -/
theorem embed_config_tokeninfo_binds_session_email
    (env : List (String × String)) (upstream : HttpRequest → HttpResponse)
    (now : Nat) (s : Session) (user : List (String × JVal)) (em : String)
    (hn : allowedUsersGet ((dictGet s "username").getD JVal.null) = some user)
    (hem : dictGet user "email" = some (JVal.str em))
    (r : HttpRequest)
    (hr : (get_embed_config env upstream now s).2.2.get? 1 = some r) :
    (∃ tok, r = mintReq2 (cfgWorkspaceUrl env) (cfgDashboardId env)
                 (pyStrip em) tok) ∧
    r.method = HttpMethod.GET ∧
    r.url = cfgWorkspaceUrl env ++ "/api/2.0/lakeview/dashboards/" ++
      cfgDashboardId env ++ "/published/tokeninfo?external_viewer_id=" ++
      quote (pyStrip em) ++ "&external_value=" ++ quote (pyStrip em) := by
  unfold get_embed_config login_required get_embed_config_inner at hr
  by_cases hid : (dictGet s "user_id").isNone
  · rw [if_pos hid] at hr
    simp [List.get?] at hr
  · rw [if_neg hid, hn] at hr
    simp only [] at hr
    by_cases hne : user.isEmpty
    · rw [if_pos hne] at hr
      simp [List.get?] at hr
    · rw [if_neg hne] at hr
      rcases hm : mint_databricks_token env upstream now user with ⟨res, tr⟩
      rw [hm] at hr
      have htr : tr.get? 1 = some r := by
        cases res <;> simp only [] at hr <;> exact hr
      unfold mint_databricks_token at hm
      by_cases hcfg : cfgWorkspaceUrl env = "" ∨ cfgClientId env = "" ∨
          cfgClientSecret env = "" ∨ cfgDashboardId env = ""
      · rw [if_pos hcfg] at hm
        have htrnil : tr = [] := congrArg Prod.snd hm.symm
        rw [htrnil] at htr
        simp [List.get?] at htr
      · rw [if_neg hcfg, pyStrField_str user "email" em hem] at hm
        simp only [] at hm
        have htr2 : (mintExchange (cfgWorkspaceUrl env) (cfgDashboardId env)
            (cfgBasicAuth env) upstream now (pyStrip em)).2.get? 1 = some r := by
          rw [hm]
          exact htr
        obtain ⟨tok, hrq⟩ := mintExchange_second_request _ _ _ _ _ _ _ htr2
        refine ⟨⟨tok, hrq⟩, ?_, ?_⟩ <;> rw [hrq] <;> rfl

/-- Witness for C1: a logged-in session, a healthy upstream; the second request
carries the session email in both query parameters. -/
theorem embed_config_tokeninfo_witness :
    (∃ tok, mintReq2 (cfgWorkspaceUrl envC) (cfgDashboardId envC)
        (pyStrip "youssef.mrini@databricks.com") (pyStr (JVal.str "AT")) =
      mintReq2 (cfgWorkspaceUrl envC) (cfgDashboardId envC)
        (pyStrip "youssef.mrini@databricks.com") tok) ∧
    (mintReq2 (cfgWorkspaceUrl envC) (cfgDashboardId envC)
        (pyStrip "youssef.mrini@databricks.com") (pyStr (JVal.str "AT"))).method =
      HttpMethod.GET ∧
    (mintReq2 (cfgWorkspaceUrl envC) (cfgDashboardId envC)
        (pyStrip "youssef.mrini@databricks.com") (pyStr (JVal.str "AT"))).url =
      cfgWorkspaceUrl envC ++ "/api/2.0/lakeview/dashboards/" ++
      cfgDashboardId envC ++ "/published/tokeninfo?external_viewer_id=" ++
      quote (pyStrip "youssef.mrini@databricks.com") ++ "&external_value=" ++
      quote (pyStrip "youssef.mrini@databricks.com") :=
  embed_config_tokeninfo_binds_session_email envC upOk 7 sC youssefUser
    "youssef.mrini@databricks.com" rfl rfl
    (mintReq2 (cfgWorkspaceUrl envC) (cfgDashboardId envC)
      (pyStrip "youssef.mrini@databricks.com") (pyStr (JVal.str "AT"))) rfl

/-- With all four config values present and a string email field, minting is
exactly the three-step exchange on the trimmed email. -/
theorem mint_unfold_ok (env : List (String × String))
    (upstream : HttpRequest → HttpResponse) (now : Nat)
    (user : List (String × JVal)) (em : String)
    (hcfg : ¬(cfgWorkspaceUrl env = "" ∨ cfgClientId env = "" ∨
              cfgClientSecret env = "" ∨ cfgDashboardId env = ""))
    (hem : dictGet user "email" = some (JVal.str em)) :
    mint_databricks_token env upstream now user =
      mintExchange (cfgWorkspaceUrl env) (cfgDashboardId env) (cfgBasicAuth env)
        upstream now (pyStrip em) := by
  unfold mint_databricks_token
  rw [if_neg hcfg, pyStrField_str user "email" em hem]

/-- A non-200 on the service-token request fails the exchange at step one:
one request issued, auth-error kind. -/
theorem mintExchange_fail1 (ws did ba ue : String)
    (upstream : HttpRequest → HttpResponse) (now : Nat)
    (h1 : (upstream (mintReq1 ws ba)).status_code ≠ 200) :
    mintExchange ws did ba upstream now ue =
      (Except.error (MintErr.upstreamAuthError
         (upstream (mintReq1 ws ba)).status_code (upstream (mintReq1 ws ba)).text),
       [mintReq1 ws ba]) := by
  simp only [mintExchange]
  rw [if_pos h1]

/-- A non-200 on the tokeninfo request fails the exchange at step two: two
requests issued, tokeninfo-error kind. -/
theorem mintExchange_fail2 (ws did ba ue : String)
    (upstream : HttpRequest → HttpResponse) (now : Nat) (tok : JVal)
    (h1 : (upstream (mintReq1 ws ba)).status_code = 200)
    (htok : jGet (upstream (mintReq1 ws ba)).json "access_token" = some tok)
    (h2 : (upstream (mintReq2 ws did ue (pyStr tok))).status_code ≠ 200) :
    mintExchange ws did ba upstream now ue =
      (Except.error (MintErr.upstreamTokenInfoError
         (upstream (mintReq2 ws did ue (pyStr tok))).status_code
         (upstream (mintReq2 ws did ue (pyStr tok))).text),
       [mintReq1 ws ba, mintReq2 ws did ue (pyStr tok)]) := by
  simp only [mintExchange]
  rw [if_neg (by simp [h1]), htok]
  simp only []
  rw [if_pos h2]

/-- A non-200 on the scoped-token request fails the exchange at step three:
three requests issued, scoped-error kind. -/
theorem mintExchange_fail3 (ws did ba ue : String)
    (upstream : HttpRequest → HttpResponse) (now : Nat) (tok : JVal)
    (ti : List (String × JVal))
    (h1 : (upstream (mintReq1 ws ba)).status_code = 200)
    (htok : jGet (upstream (mintReq1 ws ba)).json "access_token" = some tok)
    (h2 : (upstream (mintReq2 ws did ue (pyStr tok))).status_code = 200)
    (hti : (upstream (mintReq2 ws did ue (pyStr tok))).json = JVal.obj ti)
    (h3 : (upstream (mintReq3 ws ba ti)).status_code ≠ 200) :
    mintExchange ws did ba upstream now ue =
      (Except.error (MintErr.upstreamScopedTokenError
         (upstream (mintReq3 ws ba ti)).status_code
         (upstream (mintReq3 ws ba ti)).text),
       [mintReq1 ws ba, mintReq2 ws did ue (pyStr tok), mintReq3 ws ba ti]) := by
  simp only [mintExchange]
  rw [if_neg (by simp [h1]), htok]
  simp only []
  rw [if_neg (by simp [h2]), hti]
  simp only []
  rw [if_pos h3]

/-- When all three exchanges return 200 and the scoped response carries an
access token, minting succeeds with the token assembled from the scoped
response. -/
theorem mintExchange_success (ws did ba ue : String)
    (upstream : HttpRequest → HttpResponse) (now : Nat) (tok : JVal)
    (ti : List (String × JVal)) (atk : JVal)
    (h1 : (upstream (mintReq1 ws ba)).status_code = 200)
    (htok : jGet (upstream (mintReq1 ws ba)).json "access_token" = some tok)
    (h2 : (upstream (mintReq2 ws did ue (pyStr tok))).status_code = 200)
    (hti : (upstream (mintReq2 ws did ue (pyStr tok))).json = JVal.obj ti)
    (h3 : (upstream (mintReq3 ws ba ti)).status_code = 200)
    (hatk : jGet (upstream (mintReq3 ws ba ti)).json "access_token" = some atk) :
    mintExchange ws did ba upstream now ue =
      (Except.ok
         { access_token := atk, token_type := "Bearer",
           expires_in := (jGet (upstream (mintReq3 ws ba ti)).json
             "expires_in").getD (JVal.num 3600),
           created_at := now },
       [mintReq1 ws ba, mintReq2 ws did ue (pyStr tok), mintReq3 ws ba ti]) := by
  simp only [mintExchange]
  rw [if_neg (by simp [h1]), htok]
  simp only []
  rw [if_neg (by simp [h2]), hti]
  simp only []
  rw [if_neg (by simp [h3]), hatk]

/-- A minting failure propagates through embed-config as a 500 carrying the
exception message, with the session kept and the same trace. -/
theorem embed_config_propagates_error (env : List (String × String))
    (upstream : HttpRequest → HttpResponse) (now : Nat) (s : Session)
    (user : List (String × JVal))
    (hid : ¬(dictGet s "user_id").isNone)
    (hn : allowedUsersGet ((dictGet s "username").getD JVal.null) = some user)
    (hne : ¬user.isEmpty)
    (e : MintErr) (tr : List HttpRequest)
    (hm : mint_databricks_token env upstream now user = (Except.error e, tr)) :
    get_embed_config env upstream now s =
      (⟨500, JVal.obj [("error", JVal.str e.message)]⟩, s, tr) := by
  unfold get_embed_config login_required get_embed_config_inner
  rw [if_neg hid, hn]
  simp only []
  rw [if_neg hne, hm]

/-- Claim C6: a non-200 at exactly one of the three exchange steps fails the
minting with the distinct error kind of that step, no later request is ever
issued (the trace stops at the failing step), and embed-config surfaces any
minting failure as a 500 carrying the message, without retrying (the trace is
passed through unchanged). -/
theorem mint_step_failures (env : List (String × String))
    (upstream : HttpRequest → HttpResponse) (now : Nat)
    (user : List (String × JVal)) (em : String)
    (hcfg : ¬(cfgWorkspaceUrl env = "" ∨ cfgClientId env = "" ∨
              cfgClientSecret env = "" ∨ cfgDashboardId env = ""))
    (hem : dictGet user "email" = some (JVal.str em)) :
    ((upstream (mintReq1 (cfgWorkspaceUrl env) (cfgBasicAuth env))).status_code ≠ 200 →
      mint_databricks_token env upstream now user =
        (Except.error (MintErr.upstreamAuthError
           (upstream (mintReq1 (cfgWorkspaceUrl env) (cfgBasicAuth env))).status_code
           (upstream (mintReq1 (cfgWorkspaceUrl env) (cfgBasicAuth env))).text),
         [mintReq1 (cfgWorkspaceUrl env) (cfgBasicAuth env)])) ∧
    (∀ tok : JVal,
      (upstream (mintReq1 (cfgWorkspaceUrl env) (cfgBasicAuth env))).status_code = 200 →
      jGet (upstream (mintReq1 (cfgWorkspaceUrl env) (cfgBasicAuth env))).json
        "access_token" = some tok →
      (upstream (mintReq2 (cfgWorkspaceUrl env) (cfgDashboardId env) (pyStrip em)
         (pyStr tok))).status_code ≠ 200 →
      mint_databricks_token env upstream now user =
        (Except.error (MintErr.upstreamTokenInfoError
           (upstream (mintReq2 (cfgWorkspaceUrl env) (cfgDashboardId env)
              (pyStrip em) (pyStr tok))).status_code
           (upstream (mintReq2 (cfgWorkspaceUrl env) (cfgDashboardId env)
              (pyStrip em) (pyStr tok))).text),
         [mintReq1 (cfgWorkspaceUrl env) (cfgBasicAuth env),
          mintReq2 (cfgWorkspaceUrl env) (cfgDashboardId env) (pyStrip em)
            (pyStr tok)])) ∧
    (∀ (tok : JVal) (ti : List (String × JVal)),
      (upstream (mintReq1 (cfgWorkspaceUrl env) (cfgBasicAuth env))).status_code = 200 →
      jGet (upstream (mintReq1 (cfgWorkspaceUrl env) (cfgBasicAuth env))).json
        "access_token" = some tok →
      (upstream (mintReq2 (cfgWorkspaceUrl env) (cfgDashboardId env) (pyStrip em)
         (pyStr tok))).status_code = 200 →
      (upstream (mintReq2 (cfgWorkspaceUrl env) (cfgDashboardId env) (pyStrip em)
         (pyStr tok))).json = JVal.obj ti →
      (upstream (mintReq3 (cfgWorkspaceUrl env) (cfgBasicAuth env) ti)).status_code ≠ 200 →
      mint_databricks_token env upstream now user =
        (Except.error (MintErr.upstreamScopedTokenError
           (upstream (mintReq3 (cfgWorkspaceUrl env) (cfgBasicAuth env) ti)).status_code
           (upstream (mintReq3 (cfgWorkspaceUrl env) (cfgBasicAuth env) ti)).text),
         [mintReq1 (cfgWorkspaceUrl env) (cfgBasicAuth env),
          mintReq2 (cfgWorkspaceUrl env) (cfgDashboardId env) (pyStrip em) (pyStr tok),
          mintReq3 (cfgWorkspaceUrl env) (cfgBasicAuth env) ti])) ∧
    (∀ (s : Session) (e : MintErr) (tr : List HttpRequest),
      ¬(dictGet s "user_id").isNone →
      allowedUsersGet ((dictGet s "username").getD JVal.null) = some user →
      ¬user.isEmpty →
      mint_databricks_token env upstream now user = (Except.error e, tr) →
      get_embed_config env upstream now s =
        (⟨500, JVal.obj [("error", JVal.str e.message)]⟩, s, tr)) := by
  refine ⟨fun h1 => ?_, fun tok h1 htok h2 => ?_, fun tok ti h1 htok h2 hti h3 => ?_,
          fun s e tr hid hn hne hm =>
            embed_config_propagates_error env upstream now s user hid hn hne e tr hm⟩
  · rw [mint_unfold_ok env upstream now user em hcfg hem]
    exact mintExchange_fail1 _ _ _ _ _ _ h1
  · rw [mint_unfold_ok env upstream now user em hcfg hem]
    exact mintExchange_fail2 _ _ _ _ _ _ tok h1 htok h2
  · rw [mint_unfold_ok env upstream now user em hcfg hem]
    exact mintExchange_fail3 _ _ _ _ _ _ tok ti h1 htok h2 hti h3

/-- Witness for C6: an unreachable upstream fails minting at step one with the
auth-error kind and a single issued request, and embed-config surfaces it as a
500 with the message. -/
theorem mint_step_failures_witness :
    mint_databricks_token envC upDown 0 youssefUser =
      (Except.error (MintErr.upstreamAuthError 503 "down"),
       [mintReq1 (cfgWorkspaceUrl envC) (cfgBasicAuth envC)]) ∧
    get_embed_config envC upDown 0 sC =
      (⟨500, JVal.obj [("error",
         JVal.str (MintErr.upstreamAuthError 503 "down").message)]⟩, sC,
       [mintReq1 (cfgWorkspaceUrl envC) (cfgBasicAuth envC)]) := by
  have h := mint_step_failures envC upDown 0 youssefUser
    "youssef.mrini@databricks.com" (by decide) rfl
  have h1 := h.1 (by decide)
  exact ⟨h1, h.2.2.2 sC (MintErr.upstreamAuthError 503 "down")
    [mintReq1 (cfgWorkspaceUrl envC) (cfgBasicAuth envC)] (by decide) rfl
    (by decide) h1⟩

/-- After a successful tokeninfo lookup, the third outbound request is the
scoped exchange built from the tokeninfo object, whatever the upstream then
answers. -/
theorem mintExchange_third_request (ws did ba ue : String)
    (upstream : HttpRequest → HttpResponse) (now : Nat) (tok : JVal)
    (ti : List (String × JVal))
    (h1 : (upstream (mintReq1 ws ba)).status_code = 200)
    (htok : jGet (upstream (mintReq1 ws ba)).json "access_token" = some tok)
    (h2 : (upstream (mintReq2 ws did ue (pyStr tok))).status_code = 200)
    (hti : (upstream (mintReq2 ws did ue (pyStr tok))).json = JVal.obj ti) :
    (mintExchange ws did ba upstream now ue).2.get? 2 =
      some (mintReq3 ws ba ti) := by
  simp only [mintExchange]
  rw [if_neg (by simp [h1]), htok]
  simp only []
  rw [if_neg (by simp [h2]), hti]
  simp only []
  by_cases h3 : (upstream (mintReq3 ws ba ti)).status_code ≠ 200
  · rw [if_pos h3]
    rfl
  · rw [if_neg h3]
    rcases hak : jGet (upstream (mintReq3 ws ba ti)).json "access_token"
        with _ | atk <;> simp only [] <;> rfl

/-- Claim C7: for every successful tokeninfo response, the scoped exchange
posts exactly the tokeninfo object's fields with `authorization_details`
removed and re-added at the end as its JSON serialization, plus
`grant_type=client_credentials`, to the same `/oidc/v1/token` endpoint with
the same Basic auth header as the service-token request. -/
theorem scoped_exchange_request_shape (env : List (String × String))
    (upstream : HttpRequest → HttpResponse) (now : Nat)
    (user : List (String × JVal)) (em : String) (tok : JVal)
    (ti : List (String × JVal))
    (hcfg : ¬(cfgWorkspaceUrl env = "" ∨ cfgClientId env = "" ∨
              cfgClientSecret env = "" ∨ cfgDashboardId env = ""))
    (hem : dictGet user "email" = some (JVal.str em))
    (h1 : (upstream (mintReq1 (cfgWorkspaceUrl env) (cfgBasicAuth env))).status_code = 200)
    (htok : jGet (upstream (mintReq1 (cfgWorkspaceUrl env) (cfgBasicAuth env))).json
        "access_token" = some tok)
    (h2 : (upstream (mintReq2 (cfgWorkspaceUrl env) (cfgDashboardId env) (pyStrip em)
        (pyStr tok))).status_code = 200)
    (hti : (upstream (mintReq2 (cfgWorkspaceUrl env) (cfgDashboardId env) (pyStrip em)
        (pyStr tok))).json = JVal.obj ti) :
    (mint_databricks_token env upstream now user).2.get? 2 =
      some { method := HttpMethod.POST,
             url := cfgWorkspaceUrl env ++ "/oidc/v1/token",
             headers := (mintReq1 (cfgWorkspaceUrl env) (cfgBasicAuth env)).headers,
             body := urlencode
               ((dictSet (dictSet (dictRemove ti "authorization_details")
                   "grant_type" (JVal.str "client_credentials"))
                   "authorization_details"
                   (JVal.str (dumps ((dictGet ti "authorization_details").getD
                      JVal.null)))).map (fun p => (p.1, pyStr p.2))) } := by
  rw [mint_unfold_ok env upstream now user em hcfg hem]
  exact mintExchange_third_request _ _ _ _ _ _ tok ti h1 htok h2 hti

/-- Witness for C7 with the concrete healthy upstream and tokeninfo object. -/
theorem scoped_exchange_request_shape_witness :
    (mint_databricks_token envC upOk 0 youssefUser).2.get? 2 =
      some { method := HttpMethod.POST,
             url := cfgWorkspaceUrl envC ++ "/oidc/v1/token",
             headers := (mintReq1 (cfgWorkspaceUrl envC) (cfgBasicAuth envC)).headers,
             body := urlencode
               ((dictSet (dictSet (dictRemove tiC "authorization_details")
                   "grant_type" (JVal.str "client_credentials"))
                   "authorization_details"
                   (JVal.str (dumps ((dictGet tiC "authorization_details").getD
                      JVal.null)))).map (fun p => (p.1, pyStr p.2))) } :=
  scoped_exchange_request_shape envC upOk 0 youssefUser
    "youssef.mrini@databricks.com" (JVal.str "AT") tiC (by decide) rfl rfl rfl
    rfl rfl

/-- Claim C8: on a successful scoped response the minted token takes
`access_token` from the response, fixes `token_type` to Bearer, takes
`expires_in` from the response with a silent default of 3600 when absent
(still a success), and stamps `created_at` with the current time. -/
theorem minted_token_shape (env : List (String × String))
    (upstream : HttpRequest → HttpResponse) (now : Nat)
    (user : List (String × JVal)) (em : String) (tok : JVal)
    (ti : List (String × JVal)) (atk : JVal)
    (hcfg : ¬(cfgWorkspaceUrl env = "" ∨ cfgClientId env = "" ∨
              cfgClientSecret env = "" ∨ cfgDashboardId env = ""))
    (hem : dictGet user "email" = some (JVal.str em))
    (h1 : (upstream (mintReq1 (cfgWorkspaceUrl env) (cfgBasicAuth env))).status_code = 200)
    (htok : jGet (upstream (mintReq1 (cfgWorkspaceUrl env) (cfgBasicAuth env))).json
        "access_token" = some tok)
    (h2 : (upstream (mintReq2 (cfgWorkspaceUrl env) (cfgDashboardId env) (pyStrip em)
        (pyStr tok))).status_code = 200)
    (hti : (upstream (mintReq2 (cfgWorkspaceUrl env) (cfgDashboardId env) (pyStrip em)
        (pyStr tok))).json = JVal.obj ti)
    (h3 : (upstream (mintReq3 (cfgWorkspaceUrl env) (cfgBasicAuth env) ti)).status_code = 200)
    (hatk : jGet (upstream (mintReq3 (cfgWorkspaceUrl env) (cfgBasicAuth env) ti)).json
        "access_token" = some atk) :
    (mint_databricks_token env upstream now user).1 =
      Except.ok
        { access_token := atk, token_type := "Bearer",
          expires_in := (jGet (upstream (mintReq3 (cfgWorkspaceUrl env)
             (cfgBasicAuth env) ti)).json "expires_in").getD (JVal.num 3600),
          created_at := now } := by
  rw [mint_unfold_ok env upstream now user em hcfg hem,
      mintExchange_success _ _ _ _ _ _ tok ti atk h1 htok h2 hti h3 hatk]

/-- Witness for C8: the healthy upstream carries `expires_in`, so the minted
token reports it together with the fixed Bearer type and the given clock. -/
theorem minted_token_shape_witness :
    (mint_databricks_token envC upOk 7 youssefUser).1 =
      Except.ok
        { access_token := JVal.str "AT", token_type := "Bearer",
          expires_in := JVal.num 900, created_at := 7 } :=
  minted_token_shape envC upOk 7 youssefUser "youssef.mrini@databricks.com"
    (JVal.str "AT") tiC (JVal.str "AT") (by decide) rfl rfl rfl rfl rfl rfl rfl
